import Mathlib

/-!
Verification of the core components of the `selecttranslate` repository:
the window positioner (`src/translator/utils/positioning.py`), the
translation engine (`src/translator/core/translator.py`), and the
Apertium language-pair resolution (`src/translator/core/providers/apertium.py`).

Python dictionaries with heterogeneous values are embedded as association
lists over a small `Value` type.  Effectful collaborators (provider
constructors, backend `translate`, liveness probes, capability queries)
are embedded as oracles gathered in a `World` structure: each oracle
returns `Except String α`, where `.error msg` models a raised Python
exception carrying message `msg`.
-/

/-- Values stored in configuration dictionaries: embeds the Python values
appearing in `config.py` (strings, ints, bools, `None`, lists of strings). -/
inductive Value where
  | str : String → Value
  | int : Int → Value
  | bool : Bool → Value
  | none : Value
  | strList : List String → Value
  deriving DecidableEq, Repr

/-- A Python `dict` with string keys, as an association list. -/
abbrev Dict := List (String × Value)

/-- `d.get(k)` returning `None` when absent: first binding of `k` in `d`. -/
def Dict.get (d : Dict) (k : String) : Option Value :=
  match d with
  | [] => Option.none
  | (k0, v) :: rest => if k0 = k then some v else Dict.get rest k

/-- Python `d.get(k, default)`. -/
def Dict.getD (d : Dict) (k : String) (default : Value) : Value :=
  (Dict.get d k).getD default

/-- `d[k] = v`: replace the first binding of `k`, or append a new binding. -/
def Dict.set (d : Dict) (k : String) (v : Value) : Dict :=
  match d with
  | [] => [(k, v)]
  | (k0, v0) :: rest =>
    if k0 = k then (k0, v) :: rest else (k0, v0) :: Dict.set rest k v

/-- Python `d1.update(d2)`: every binding of `d2` is written into `d1`. -/
def Dict.update (d1 d2 : Dict) : Dict :=
  d2.foldl (fun acc kv => Dict.set acc kv.1 kv.2) d1

/-- Python `d.copy()`: a shallow copy; in the pure embedding this is the
identity, kept as a named operation to mirror the source. -/
def Dict.copy (d : Dict) : Dict := d

/-- Whether `k in d` holds for a Python dict. -/
def Dict.hasKey (d : Dict) (k : String) : Bool :=
  (Dict.get d k).isSome

/-- The characters Python treats as whitespace for `str.strip()` /
`str.isspace()` (ASCII whitespace plus the Unicode space characters). -/
def isPySpace (c : Char) : Bool :=
  let n := c.toNat
  n = 0x20 || n = 0x09 || n = 0x0a || n = 0x0d || n = 0x0b || n = 0x0c ||
  (0x1c <= n && n <= 0x1f) || n = 0x85 || n = 0xa0 || n = 0x1680 ||
  (0x2000 <= n && n <= 0x200a) || n = 0x2028 || n = 0x2029 ||
  n = 0x202f || n = 0x205f || n = 0x3000

/-- Python `text.strip()`: drop leading and trailing whitespace. -/
def pyStrip (s : String) : String :=
  String.mk (((s.data.dropWhile isPySpace).reverse.dropWhile isPySpace).reverse)

/-! ## Positioner (`src/translator/utils/positioning.py`) -/

/-- The layout constants a `WindowPositioner` instance holds
(`text_height`, `margin`, `title_bar_height`); the cursor tool is an
external collaborator and is not part of the geometry. -/
structure WindowPositioner where
  text_height : Int
  margin : Int
  title_bar_height : Int
  deriving DecidableEq, Repr

/-- The default layout constants from `POSITIONING_CONFIG` in `config.py`:
`text_height = 25`, `margin = 15`, `title_bar_height = 30`. -/
def defaultPositioner : WindowPositioner :=
  { text_height := 25, margin := 15, title_bar_height := 30 }

/-- `WindowPositioner.calculate_window_position` from
`src/translator/utils/positioning.py` (lines 61-102).  Python `//` is
floor division, embedded as `Int.fdiv`. -/
def WindowPositioner.calculate_window_position (p : WindowPositioner)
    (cursor_x cursor_y window_width window_height screen_width screen_height : Int) :
    Int × Int :=
  let new_x := cursor_x
  let screen_middle := Int.fdiv screen_height 2
  let new_y :=
    if cursor_y ≤ screen_middle then
      cursor_y + p.text_height + p.margin
    else
      cursor_y - p.text_height - window_height - (p.margin * 2) - p.title_bar_height
  let new_x := if new_x + window_width > screen_width then screen_width - window_width - 10 else new_x
  let new_y :=
    if new_y < 0 then p.margin
    else if new_y + window_height > screen_height then screen_height - window_height - p.margin
    else new_y
  (new_x, new_y)

/-- The five-step algorithm exactly as the specification words it
(spec section 4.1), to be compared with the source definition:
(1) horizontal anchor at the cursor; (2) branch on the screen half, ties
to the upper half; (3) horizontal clamp with a fixed 10-unit inset;
(4) vertical clamp to `margin` or to `screen_height - popup_height - margin`;
(5) return the pair. -/
def compute_position_spec (p : WindowPositioner)
    (cursor_x cursor_y popup_width popup_height screen_width screen_height : Int) :
    Int × Int :=
  let x := cursor_x
  let y :=
    if cursor_y ≤ Int.fdiv screen_height 2 then
      cursor_y + p.text_height + p.margin
    else
      cursor_y - p.text_height - popup_height - 2 * p.margin - p.title_bar_height
  let x := if x + popup_width > screen_width then screen_width - popup_width - 10 else x
  let y :=
    if y < 0 then p.margin
    else if y + popup_height > screen_height then screen_height - popup_height - p.margin
    else y
  (x, y)

/-! ## Provider configuration (`src/translator/config.py`) -/

/-- `PROVIDER_CONFIGS["apertium"]` from `config.py`. -/
def apertiumDefaultConfig : Dict :=
  [("engine", .str "apertium"),
   ("language_pair", .str "eng-spa"),
   ("timeout", .int 10),
   ("description", .str "Local offline translation using Apertium"),
   ("requires_internet", .bool false),
   ("supported_pairs", .strList ["eng-spa", "spa-eng", "eng-fra", "fra-eng"])]

/-- `PROVIDER_CONFIGS["google"]` from `config.py`. -/
def googleDefaultConfig : Dict :=
  [("api_key", .none),
   ("service_url", .str "https://translate.googleapis.com/translate_v2"),
   ("timeout", .int 15),
   ("description", .str "Google Translate API (requires API key for high volume)"),
   ("requires_internet", .bool true),
   ("supported_pairs", .str "auto")]

/-- `PROVIDER_CONFIGS["libretranslate"]` from `config.py`. -/
def libretranslateDefaultConfig : Dict :=
  [("service_url", .str "https://libretranslate.de/translate"),
   ("api_key", .none),
   ("timeout", .int 15),
   ("description", .str "LibreTranslate - Free and open source translation"),
   ("requires_internet", .bool true),
   ("supported_pairs", .str "auto")]

/-- `PROVIDER_CONFIGS` from `config.py`: the fixed table of configured
providers, keyed by name. -/
def PROVIDER_CONFIGS : List (String × Dict) :=
  [("apertium", apertiumDefaultConfig),
   ("google", googleDefaultConfig),
   ("libretranslate", libretranslateDefaultConfig)]

/-- Lookup in the `PROVIDER_CONFIGS` table (Python `PROVIDER_CONFIGS[name]`
/ `name in PROVIDER_CONFIGS`). -/
def providerConfigFor (name : String) : Option Dict :=
  match PROVIDER_CONFIGS.find? (fun nc => nc.1 = name) with
  | some nc => some nc.2
  | Option.none => Option.none

/-! ## Engine model (`src/translator/core/translator.py`)

The engine dispatches to one of three provider classes.  A constructed
provider instance is its class together with the configuration dictionary
it was built from (the class constructors only read fields out of that
dictionary). -/

/-- The three provider classes of `src/translator/core/providers`. -/
inductive ProviderKind where
  | apertium
  | google
  | libretranslate
  deriving DecidableEq, Repr

/-- A constructed provider instance: its class and the configuration it
received. -/
structure ProviderInst where
  kind : ProviderKind
  config : Dict
  deriving DecidableEq, Repr

/-- `TranslationProvider.get_description` (`providers/base.py`): the value
stored by `__init__` from `config.get("description", "Unknown provider")`. -/
def ProviderInst.get_description (p : ProviderInst) : Value :=
  Dict.getD p.config "description" (.str "Unknown provider")

/-- `TranslationProvider.requires_internet_connection` (`providers/base.py`):
the value stored by `__init__` from `config.get("requires_internet", True)`. -/
def ProviderInst.requires_internet_connection (p : ProviderInst) : Value :=
  Dict.getD p.config "requires_internet" (.bool true)

/-- The effectful collaborators of the engine as oracles.  `.error msg`
models a Python exception with message `msg`: provider constructors may
raise, and a provider's `translate` / `is_available` /
`get_supported_languages` run subprocesses or network calls, so their
outcomes are environment-dependent. -/
structure World where
  ctor : ProviderKind → Dict → Except String Unit
  providerTranslate : ProviderInst → String → String → String → Except String (Bool × String)
  providerAvailable : ProviderInst → Except String Bool
  providerLanguages : ProviderInst → Except String (List String)

/-- The observable state of a `TranslationEngine` instance: the attributes
set in `__init__` (`translator.py` lines 14-29). -/
structure TranslationEngine where
  provider_name : String
  source_lang : String
  target_lang : String
  config : Dict
  provider : ProviderInst
  deriving DecidableEq, Repr

/-- `TranslationEngine._create_provider` (`translator.py` lines 31-56):
an unknown name falls back to `"apertium"`; the provider is built from the
table entry's copy updated with the engine's stored `config`; the final
`else` branch is unreachable for names in the table but is embedded as the
source writes it. -/
def TranslationEngine.create_provider (w : World) (selfConfig : Dict)
    (provider_name : String) : Except String ProviderInst :=
  let name := if (providerConfigFor provider_name).isSome then provider_name else "apertium"
  let provider_config := Dict.update (Dict.copy ((providerConfigFor name).getD [])) selfConfig
  if name = "apertium" then do
    let _ ← w.ctor .apertium provider_config
    pure { kind := .apertium, config := provider_config }
  else if name = "google" then do
    let _ ← w.ctor .google provider_config
    pure { kind := .google, config := provider_config }
  else if name = "libretranslate" then do
    let _ ← w.ctor .libretranslate provider_config
    pure { kind := .libretranslate, config := provider_config }
  else do
    let _ ← w.ctor .apertium ((providerConfigFor "apertium").getD [])
    pure { kind := .apertium, config := (providerConfigFor "apertium").getD [] }

/-- `TranslationEngine.translate` (`translator.py` lines 58-83): empty or
whitespace-only input is rejected before dispatch; a backend exception is
caught and converted to an `Unexpected error` failure. -/
def TranslationEngine.translate (w : World) (e : TranslationEngine) (text : String) :
    Bool × String :=
  if pyStrip text = "" then (false, "Empty text provided")
  else
    match w.providerTranslate e.provider text e.source_lang e.target_lang with
    | .ok (success, result) => (success, result)
    | .error msg => (false, "Unexpected error: " ++ msg)

/-- `TranslationEngine.switch_provider` (`translator.py` lines 122-146):
inside the `try` block the engine first overwrites `provider_name`, then
merges a truthy `config` argument into its stored config, and only then
constructs the new provider; an exception there yields `False` with the
mutations already applied. -/
def TranslationEngine.switch_provider (w : World) (e : TranslationEngine)
    (provider_name : String) (config : Option Dict) : Bool × TranslationEngine :=
  let e1 := { e with provider_name := provider_name }
  let e2 :=
    match config with
    | some c => if c ≠ [] then { e1 with config := Dict.update e1.config c } else e1
    | Option.none => e1
  match TranslationEngine.create_provider w e2.config provider_name with
  | .ok p => (true, { e2 with provider := p })
  | .error _ => (false, e2)

/-- One entry of the dictionary returned by
`TranslationEngine.get_available_providers` (`translator.py` lines 148-174). -/
structure ProviderInfo where
  description : Value
  requires_internet : Value
  available : Bool
  supported_languages : List String
  deriving DecidableEq, Repr

/-- The `try` block body of `get_available_providers` for one provider
name, in the source's evaluation order: construct the provider, then read
its description and internet flag, then run the liveness probe, then the
capability query. -/
def TranslationEngine.provider_info_attempt (w : World) (selfConfig : Dict)
    (name : String) : Except String ProviderInfo := do
  let p ← TranslationEngine.create_provider w selfConfig name
  let avail ← w.providerAvailable p
  let langs ← w.providerLanguages p
  pure { description := p.get_description,
         requires_internet := p.requires_internet_connection,
         available := avail,
         supported_languages := langs }

/-- The `except` fallback entry of `get_available_providers` (`translator.py`
lines 165-172), built from the provider's static configuration. -/
def fallback_provider_info (config : Dict) : ProviderInfo :=
  { description := Dict.getD config "description" (.str "Unknown"),
    requires_internet := Dict.getD config "requires_internet" (.bool true),
    available := false,
    supported_languages := [] }

/-- `TranslationEngine.get_available_providers` (`translator.py` lines
148-174): per-provider `try`/`except`, so one broken provider yields its
fallback entry and enumeration continues. -/
def TranslationEngine.get_available_providers (w : World) (e : TranslationEngine) :
    List (String × ProviderInfo) :=
  PROVIDER_CONFIGS.map (fun nc =>
    match TranslationEngine.provider_info_attempt w e.config nc.1 with
    | .ok info => (nc.1, info)
    | .error _ => (nc.1, fallback_provider_info nc.2))

/-! ## Apertium pair resolution (`src/translator/core/providers/apertium.py`) -/

/-- The `lang_map` table of `ApertiumProvider._convert_to_apertium_pair`
(`apertium.py` lines 89-125): ISO codes to Apertium codes. -/
def lang_map : List (String × String) :=
  [("en", "eng"), ("es", "spa"), ("fr", "fra"), ("de", "deu"), ("it", "ita"),
   ("pt", "por"), ("ca", "cat"), ("eu", "eus"), ("gl", "glg"), ("oc", "oci"),
   ("ar", "ara"), ("mt", "mlt"), ("cy", "cym"), ("br", "bre"), ("is", "isl"),
   ("mk", "mkd"), ("bg", "bul"), ("hr", "hrv"), ("sl", "slv"), ("sr", "srp"),
   ("bs", "bos"), ("sq", "sqi"), ("ro", "ron"), ("ru", "rus"), ("be", "bel"),
   ("uk", "ukr"), ("kk", "kaz"), ("ky", "kir"), ("uz", "uzb"), ("tt", "tat"),
   ("ba", "bak"), ("crh", "crh"), ("nog", "nog"), ("kum", "kum"), ("kaa", "kaa")]

/-- `lang_map.get(code, code)`: map an ISO code to the Apertium code,
defaulting to the code itself. -/
def mapToApertiumCode (code : String) : String :=
  match lang_map.find? (fun kv => kv.1 = code) with
  | some kv => kv.2
  | Option.none => code

/-- `ApertiumProvider._convert_to_apertium_pair` (`apertium.py` lines
78-142), with the supported-pairs list reported by the capability query
`_get_apertium_pairs()` and the instance's configured default
`language_pair` passed explicitly. -/
def convert_to_apertium_pair (supported_pairs : List String)
    (language_pair : String) (source_lang target_lang : String) : String :=
  let apertium_source := mapToApertiumCode source_lang
  let apertium_target := mapToApertiumCode target_lang
  let pair := apertium_source ++ "-" ++ apertium_target
  let reverse_pair := apertium_target ++ "-" ++ apertium_source
  if supported_pairs.contains pair then pair
  else if supported_pairs.contains reverse_pair then reverse_pair
  else language_pair

/-- The pair-resolution policy exactly as the specification words it
(spec section 4.2): map the ISO codes into the backend's own code space,
return the requested pair when the capability query lists it, otherwise
the reversed pair when listed, and only otherwise the configured default
pair. -/
def resolve_pair_spec (supported_pairs : List String)
    (default_pair : String) (source_lang target_lang : String) : String :=
  let s := mapToApertiumCode source_lang
  let t := mapToApertiumCode target_lang
  if supported_pairs.contains (s ++ "-" ++ t) then s ++ "-" ++ t
  else if supported_pairs.contains (t ++ "-" ++ s) then t ++ "-" ++ s
  else default_pair

/-! ## Concrete worlds and engine states for witnesses and counterexamples -/

/-- A world in which nothing raises: constructors succeed, backends answer
`translate` with a fixed success, probes answer `True`. -/
def benignWorld : World :=
  { ctor := fun _ _ => .ok (),
    providerTranslate := fun _ _ _ _ => .ok (true, "hola"),
    providerAvailable := fun _ => .ok true,
    providerLanguages := fun _ => .ok ["en", "es"] }

/-- A world in which every provider constructor raises. -/
def ctorRaisesWorld : World :=
  { benignWorld with ctor := fun _ _ => .error "constructor crashed" }

/-- A world in which construction succeeds but every liveness probe raises. -/
def probeRaisesWorld : World :=
  { benignWorld with providerAvailable := fun _ => .error "probe crashed" }

/-- A world in which the backend's `translate` raises. -/
def translateRaisesWorld : World :=
  { benignWorld with providerTranslate := fun _ _ _ _ => .error "backend blew up" }

/-- A fresh engine as `TranslationEngine()` constructs it in `benignWorld`:
defaults from `TRANSLATION_CONFIG` (`provider = "apertium"`,
`source_lang = "en"`, `target_lang = "es"`), empty extra config, and the
apertium provider built from its default table entry. -/
def initialEngine : TranslationEngine :=
  { provider_name := "apertium",
    source_lang := "en",
    target_lang := "es",
    config := [],
    provider := { kind := .apertium, config := apertiumDefaultConfig } }

/-- An engine currently on the google provider (e.g. after
`TranslationEngine("google")`). -/
def googleEngine : TranslationEngine :=
  { provider_name := "google",
    source_lang := "en",
    target_lang := "es",
    config := [],
    provider := { kind := .google, config := googleDefaultConfig } }

/-! ## Claims about the positioner -/

/-- C3: `calculate_window_position` implements exactly the spec's
five-step algorithm (`compute_position_spec`), and on a 1920x1080 screen
with a 420x320 popup and constants (25, 15, 30), cursor (800, 100) yields
(800, 140) and cursor (1800, 1000) yields (1490, 595). -/
theorem calculate_window_position_refines_spec_and_scenarios :
    (∀ (p : WindowPositioner) (cx cy w h sw sh : Int),
      p.calculate_window_position cx cy w h sw sh = compute_position_spec p cx cy w h sw sh) ∧
    defaultPositioner.calculate_window_position 800 100 420 320 1920 1080 = (800, 140) ∧
    defaultPositioner.calculate_window_position 1800 1000 420 320 1920 1080 = (1490, 595) := by
  refine ⟨?_, by decide, by decide⟩
  intro p cx cy w h sw sh
  simp only [WindowPositioner.calculate_window_position, compute_position_spec]
  split_ifs <;> simp only [Prod.mk.injEq] <;> constructor <;> first | omega | trivial

/-- C6 counterexample: with the default constants, cursor (0, 540) on a
1920x1080 screen (540 is in the upper half since 1080 // 2 = 540) and a
popup of height 1000, the bottom-edge clamp moves the popup to y = 65,
strictly above the cursor, refuting `y >= cursor_y`. -/
theorem calculate_window_position_below_cursor_cex :
    (540 : Int) ≤ Int.fdiv 1080 2 ∧
    (defaultPositioner.calculate_window_position 0 540 100 1000 1920 1080).2 < 540 := by
  decide

/-- C6 amended: for nonnegative `text_height` and `margin`, a cursor in
the upper half of the screen gets a popup at `y >= cursor_y`, provided the
below-placement fits on screen (`cursor_y + text_height + margin +
window_height <= screen_height`), i.e. the bottom-edge clamp does not
fire. -/
theorem calculate_window_position_below_cursor_when_unclamped
    (p : WindowPositioner) (cx cy w h sw sh : Int)
    (hth : 0 ≤ p.text_height) (hm : 0 ≤ p.margin)
    (hcy : cy ≤ Int.fdiv sh 2) (hfit : cy + p.text_height + p.margin + h ≤ sh) :
    cy ≤ (p.calculate_window_position cx cy w h sw sh).2 := by
  simp only [WindowPositioner.calculate_window_position]
  split_ifs <;> omega

/-- C6 witness: the amended theorem applied at the spec's first concrete
scenario, cursor (800, 100), popup 420x320, screen 1920x1080. -/
theorem calculate_window_position_below_cursor_witness :
    ((0 : Int) ≤ defaultPositioner.text_height ∧ (0 : Int) ≤ defaultPositioner.margin ∧
     (100 : Int) ≤ Int.fdiv 1080 2 ∧
     (100 : Int) + defaultPositioner.text_height + defaultPositioner.margin + 320 ≤ 1080) ∧
    (100 : Int) ≤ (defaultPositioner.calculate_window_position 800 100 420 320 1920 1080).2 :=
  ⟨⟨by decide, by decide, by decide, by decide⟩,
   calculate_window_position_below_cursor_when_unclamped defaultPositioner 800 100 420 320 1920 1080
     (by decide) (by decide) (by decide) (by decide)⟩

/-- C7 counterexample: with `cursor_x = 1 >= 0` and `window_width =
screen_width = 100` (so `popup_width <= screen_width`), the horizontal
clamp sets `x = 100 - 100 - 10 = -10 < 0`, refuting `0 <= x`. -/
theorem calculate_window_position_bounds_cex :
    (0 : Int) ≤ 1 ∧ (100 : Int) ≤ 100 ∧
    (defaultPositioner.calculate_window_position 1 0 100 50 100 1080).1 < 0 := by
  decide

/-- C7 amended: the result stays fully on screen — `0 <= x`,
`x + width <= screen_width`, `0 <= y`, `y + height <= screen_height` —
for `0 <= cursor_x` and a nonnegative margin, provided the popup leaves
room for the clamp insets: `width <= screen_width - 10` (the fixed
horizontal inset) and `height <= screen_height - margin`. -/
theorem calculate_window_position_stays_on_screen
    (p : WindowPositioner) (cx cy w h sw sh : Int)
    (hcx : 0 ≤ cx) (hm : 0 ≤ p.margin) (hw : w ≤ sw - 10) (hh : h ≤ sh - p.margin) :
    0 ≤ (p.calculate_window_position cx cy w h sw sh).1 ∧
    (p.calculate_window_position cx cy w h sw sh).1 + w ≤ sw ∧
    0 ≤ (p.calculate_window_position cx cy w h sw sh).2 ∧
    (p.calculate_window_position cx cy w h sw sh).2 + h ≤ sh := by
  refine ⟨?_, ?_, ?_, ?_⟩ <;>
    (simp only [WindowPositioner.calculate_window_position]; split_ifs <;> omega)

/-- C7 witness: the amended theorem applied at the spec's second concrete
scenario, cursor (1800, 1000), popup 420x320, screen 1920x1080. -/
theorem calculate_window_position_stays_on_screen_witness :
    ((0 : Int) ≤ 1800 ∧ (0 : Int) ≤ defaultPositioner.margin ∧
     (420 : Int) ≤ 1920 - 10 ∧ (320 : Int) ≤ 1080 - defaultPositioner.margin) ∧
    (0 ≤ (defaultPositioner.calculate_window_position 1800 1000 420 320 1920 1080).1 ∧
     (defaultPositioner.calculate_window_position 1800 1000 420 320 1920 1080).1 + 420 ≤ 1920 ∧
     0 ≤ (defaultPositioner.calculate_window_position 1800 1000 420 320 1920 1080).2 ∧
     (defaultPositioner.calculate_window_position 1800 1000 420 320 1920 1080).2 + 320 ≤ 1080) :=
  ⟨⟨by decide, by decide, by decide, by decide⟩,
   calculate_window_position_stays_on_screen defaultPositioner 1800 1000 420 320 1920 1080
     (by decide) (by decide) (by decide) (by decide)⟩

/-! ## Claims about engine translate -/

/-- A string all of whose characters are Python whitespace strips to the
empty string. -/
theorem pyStrip_eq_empty_of_all_space (s : String)
    (h : ∀ c ∈ s.data, isPySpace c = true) : pyStrip s = "" := by
  unfold pyStrip
  have h1 : s.data.dropWhile isPySpace = [] := List.dropWhile_eq_nil_iff.mpr h
  rw [h1]
  rfl

/-- C4: for every engine state, every backend behaviour, and every string
consisting only of whitespace characters (the empty string included),
`TranslationEngine.translate` returns the empty-input failure
`(False, "Empty text provided")`; the result does not depend on the
backend oracle at all, i.e. the backend is never invoked. -/
theorem translate_rejects_whitespace_without_backend
    (w : World) (e : TranslationEngine) (text : String)
    (h : ∀ c ∈ text.data, isPySpace c = true) :
    TranslationEngine.translate w e text = (false, "Empty text provided") := by
  unfold TranslationEngine.translate
  rw [if_pos (pyStrip_eq_empty_of_all_space text h)]

/-- C4 witness: the theorem applied to the three-space string of the
spec's test scenario, in an arbitrary concrete world. -/
theorem translate_rejects_whitespace_witness :
    (∀ c ∈ ("   " : String).data, isPySpace c = true) ∧
    TranslationEngine.translate translateRaisesWorld initialEngine "   " =
      (false, "Empty text provided") :=
  ⟨by decide,
   translate_rejects_whitespace_without_backend translateRaisesWorld initialEngine "   " (by decide)⟩

/-- C5: for every input that reaches the backend and every backend whose
`translate` raises an exception with message `msg`,
`TranslationEngine.translate` catches it and returns the failure
`(False, "Unexpected error: " ++ msg)`; the engine's `translate` is a
total function, so no exception propagates to its caller. -/
theorem translate_catches_backend_exception
    (w : World) (e : TranslationEngine) (text msg : String)
    (hne : pyStrip text ≠ "")
    (hr : w.providerTranslate e.provider text e.source_lang e.target_lang = .error msg) :
    TranslationEngine.translate w e text = (false, "Unexpected error: " ++ msg) := by
  unfold TranslationEngine.translate
  rw [if_neg hne, hr]

/-- C5 witness: the theorem applied to the input `"hello"` in a world
whose backend raises with message `"backend blew up"`. -/
theorem translate_catches_backend_exception_witness :
    (pyStrip "hello" ≠ "" ∧
     translateRaisesWorld.providerTranslate initialEngine.provider "hello"
       initialEngine.source_lang initialEngine.target_lang = .error "backend blew up") ∧
    TranslationEngine.translate translateRaisesWorld initialEngine "hello" =
      (false, "Unexpected error: backend blew up") :=
  ⟨⟨by decide, rfl⟩,
   translate_catches_backend_exception translateRaisesWorld initialEngine "hello" "backend blew up"
     (by decide) rfl⟩

/-! ## Claims about provider switching -/

/-- For a name outside the `PROVIDER_CONFIGS` table, `_create_provider`
falls back to constructing the apertium provider from the apertium table
entry merged with the engine's stored config; no exception is raised for
the unknown name. -/
theorem create_provider_unknown_name (w : World) (cfg : Dict) (name : String)
    (hname : providerConfigFor name = Option.none) :
    TranslationEngine.create_provider w cfg name =
      Except.bind (w.ctor .apertium (Dict.update apertiumDefaultConfig cfg))
        (fun _ => Except.ok { kind := .apertium, config := Dict.update apertiumDefaultConfig cfg }) := by
  unfold TranslationEngine.create_provider
  rw [hname]
  rfl

/-- C1 counterexample: on an engine whose active backend is the google
provider, `switch_provider("nonexistent", {})` returns `True` (not false)
and replaces the active backend (with the apertium fallback). -/
theorem switch_provider_unknown_name_cex :
    (TranslationEngine.switch_provider benignWorld googleEngine "nonexistent" (some [])).1 = true ∧
    (TranslationEngine.switch_provider benignWorld googleEngine "nonexistent" (some [])).2.provider ≠
      googleEngine.provider := by
  decide

/-- C1 amended: calling `switch_provider` with a name outside the
configured provider set (when the provider constructors themselves do not
raise) returns `True`, records the unknown name as `provider_name`, and
silently replaces the active backend with the apertium fallback
provider. -/
theorem switch_provider_unknown_name_falls_back
    (w : World) (e : TranslationEngine) (name : String) (c : Dict)
    (hname : providerConfigFor name = Option.none)
    (hctor : ∀ k cfg, w.ctor k cfg = .ok ()) :
    (TranslationEngine.switch_provider w e name (some c)).1 = true ∧
    (TranslationEngine.switch_provider w e name (some c)).2.provider_name = name ∧
    (TranslationEngine.switch_provider w e name (some c)).2.provider.kind = .apertium := by
  simp only [TranslationEngine.switch_provider]
  rw [create_provider_unknown_name w _ name hname, hctor]
  by_cases hc : c = []
  · subst hc
    exact ⟨rfl, rfl, rfl⟩
  · simp only [ne_eq, hc, not_false_iff, if_true]
    exact ⟨rfl, rfl, rfl⟩

/-- C1 witness: the amended theorem applied to the spec's scenario
`switch_provider("nonexistent", {})` on a fresh engine. -/
theorem switch_provider_unknown_name_falls_back_witness :
    providerConfigFor "nonexistent" = Option.none ∧
    ((TranslationEngine.switch_provider benignWorld initialEngine "nonexistent" (some [])).1 = true ∧
     (TranslationEngine.switch_provider benignWorld initialEngine "nonexistent" (some [])).2.provider_name =
       "nonexistent" ∧
     (TranslationEngine.switch_provider benignWorld initialEngine "nonexistent" (some [])).2.provider.kind =
       .apertium) :=
  ⟨rfl,
   switch_provider_unknown_name_falls_back benignWorld initialEngine "nonexistent" []
     rfl (fun _ _ => rfl)⟩

/-- C2 counterexample: in a world whose google constructor raises,
`switch_provider` on a fresh apertium engine returns `False` but the
resulting engine state differs from the original: `provider_name` and
`config` were already overwritten before construction failed. -/
theorem switch_provider_failure_cex :
    (TranslationEngine.switch_provider ctorRaisesWorld initialEngine "google"
      (some [("api_key", Value.str "k")])).1 = false ∧
    (TranslationEngine.switch_provider ctorRaisesWorld initialEngine "google"
      (some [("api_key", Value.str "k")])).2 ≠ initialEngine := by
  decide

/-- C2 amended: a failing `switch_provider` call leaves the active
backend (`provider`) and the language pair unchanged, but the requested
name is already stored in `provider_name` and a truthy config override is
already merged into `config` — the partial reconfiguration is
observable. -/
theorem switch_provider_failure_partial_state
    (w : World) (e : TranslationEngine) (name : String) (c : Dict) (e2 : TranslationEngine)
    (h : TranslationEngine.switch_provider w e name (some c) = (false, e2)) :
    e2.provider = e.provider ∧ e2.provider_name = name ∧
    e2.config = (if c ≠ [] then Dict.update e.config c else e.config) ∧
    e2.source_lang = e.source_lang ∧ e2.target_lang = e.target_lang := by
  simp only [TranslationEngine.switch_provider] at h
  split at h
  · simp at h
  · simp only [Prod.mk.injEq] at h
    obtain ⟨-, h2⟩ := h
    subst h2
    by_cases hc : c = []
    · subst hc
      exact ⟨rfl, rfl, rfl, rfl, rfl⟩
    · simp [hc]

/-- The engine state left behind by the failing switch of the C2
counterexample scenario. -/
def failedSwitchState : TranslationEngine :=
  (TranslationEngine.switch_provider ctorRaisesWorld initialEngine "google"
    (some [("api_key", Value.str "k")])).2

/-- C2 witness: the amended theorem applied to the concrete failing
switch of `failedSwitchState`. -/
theorem switch_provider_failure_partial_state_witness :
    failedSwitchState.provider = initialEngine.provider ∧
    failedSwitchState.provider_name = "google" ∧
    failedSwitchState.config =
      (if ([("api_key", Value.str "k")] : Dict) ≠ [] then
        Dict.update initialEngine.config [("api_key", Value.str "k")]
      else initialEngine.config) ∧
    failedSwitchState.source_lang = initialEngine.source_lang ∧
    failedSwitchState.target_lang = initialEngine.target_lang :=
  switch_provider_failure_partial_state ctorRaisesWorld initialEngine "google"
    [("api_key", Value.str "k")] failedSwitchState rfl

/-! ## Claims about provider enumeration -/

/-- C8: `get_available_providers` enumerates exactly the configured
provider names for every backend behaviour (it is a total function, so it
never fails outright), and any provider whose construction or liveness
probe raises is reported with the fallback entry built from its static
configuration: `available = false`, descriptor fields from the config,
empty language list. -/
theorem get_available_providers_robust (w : World) (e : TranslationEngine) :
    (TranslationEngine.get_available_providers w e).map Prod.fst = PROVIDER_CONFIGS.map Prod.fst ∧
    (∀ name config msg, (name, config) ∈ PROVIDER_CONFIGS →
      TranslationEngine.provider_info_attempt w e.config name = .error msg →
      (name, fallback_provider_info config) ∈ TranslationEngine.get_available_providers w e) := by
  constructor
  · unfold TranslationEngine.get_available_providers
    rw [List.map_map]
    apply List.map_congr_left
    intro nc _
    simp only [Function.comp_apply]
    cases h : TranslationEngine.provider_info_attempt w e.config nc.1 <;> simp [h]
  · intro name config msg hmem hatt
    have hmm := List.mem_map_of_mem
      (fun nc : String × Dict =>
        match TranslationEngine.provider_info_attempt w e.config nc.1 with
        | .ok info => (nc.1, info)
        | .error _ => (nc.1, fallback_provider_info nc.2)) hmem
    unfold TranslationEngine.get_available_providers
    simpa [hatt] using hmm

/-- C8 witness: in a world where every liveness probe raises, the
enumeration still lists all three configured names and reports apertium
with its static-config fallback entry. -/
theorem get_available_providers_robust_witness :
    (TranslationEngine.get_available_providers probeRaisesWorld initialEngine).map Prod.fst =
      PROVIDER_CONFIGS.map Prod.fst ∧
    ("apertium", fallback_provider_info apertiumDefaultConfig) ∈
      TranslationEngine.get_available_providers probeRaisesWorld initialEngine :=
  ⟨(get_available_providers_robust probeRaisesWorld initialEngine).1,
   (get_available_providers_robust probeRaisesWorld initialEngine).2 "apertium"
     apertiumDefaultConfig "probe crashed" (by decide) rfl⟩

/-! ## Claim about Apertium pair resolution -/

/-- C9: `_convert_to_apertium_pair` coincides with the spec's resolution
policy (`resolve_pair_spec`) for every supported-pairs list and every ISO
code pair: requested pair first, reversed pair second, configured default
pair last; illustrated on concrete capability lists for the en/es pair. -/
theorem convert_to_apertium_pair_refines_spec :
    (∀ (supported : List String) (lp s t : String),
      convert_to_apertium_pair supported lp s t = resolve_pair_spec supported lp s t) ∧
    convert_to_apertium_pair ["eng-spa", "spa-eng"] "eng-spa" "en" "es" = "eng-spa" ∧
    convert_to_apertium_pair ["spa-eng"] "eng-spa" "en" "es" = "spa-eng" ∧
    convert_to_apertium_pair ["eng-fra"] "XYZ" "en" "es" = "XYZ" :=
  ⟨fun _ _ _ _ => rfl, by decide, by decide, by decide⟩

/-! ## Claim about config accumulation across switches -/

/-- Updating a dictionary with an empty override dictionary is the
identity. -/
theorem Dict.update_nil (d : Dict) : Dict.update d [] = d := rfl

/-- `_create_provider` for the name `"apertium"`: builds the apertium
provider from the table defaults merged with the engine config, after
consulting the constructor oracle. -/
theorem create_provider_apertium (w : World) (cfg : Dict) :
    TranslationEngine.create_provider w cfg "apertium" =
      Except.bind (w.ctor .apertium (Dict.update apertiumDefaultConfig cfg))
        (fun _ => Except.ok { kind := .apertium, config := Dict.update apertiumDefaultConfig cfg }) := rfl

/-- `_create_provider` for the name `"google"`. -/
theorem create_provider_google (w : World) (cfg : Dict) :
    TranslationEngine.create_provider w cfg "google" =
      Except.bind (w.ctor .google (Dict.update googleDefaultConfig cfg))
        (fun _ => Except.ok { kind := .google, config := Dict.update googleDefaultConfig cfg }) := rfl

/-- `_create_provider` for the name `"libretranslate"`. -/
theorem create_provider_libretranslate (w : World) (cfg : Dict) :
    TranslationEngine.create_provider w cfg "libretranslate" =
      Except.bind (w.ctor .libretranslate (Dict.update libretranslateDefaultConfig cfg))
        (fun _ => Except.ok { kind := .libretranslate, config := Dict.update libretranslateDefaultConfig cfg }) := rfl

/-- Binding a constant success continuation: the overall `ok` value is
that constant. -/
theorem except_bind_const_ok {α β : Type} (x : Except String α) (v p : β)
    (h : Except.bind x (fun _ => Except.ok v) = Except.ok p) : p = v := by
  cases x
  · simp [Except.bind] at h
  · simp [Except.bind] at h
    exact h.symm

/-- Whatever the outcome of `switch_provider`, the engine state it leaves
behind stores the previous config merged with the passed override. -/
theorem switch_provider_result_config (w : World) (e : TranslationEngine)
    (name : String) (c : Dict) :
    ((TranslationEngine.switch_provider w e name (some c)).2).config = Dict.update e.config c := by
  simp only [TranslationEngine.switch_provider]
  split <;> by_cases hc : c = [] <;> simp [hc, Dict.update_nil]

/-- A successful switch to a configured provider name constructs the new
backend from the name's table defaults merged with the engine's (already
updated) stored config. -/
theorem switch_provider_ok_provider_config (w : World) (e : TranslationEngine)
    (name : String) (c : Dict) (e2 : TranslationEngine)
    (hname : name = "apertium" ∨ name = "google" ∨ name = "libretranslate")
    (h : TranslationEngine.switch_provider w e name (some c) = (true, e2)) :
    e2.provider.config = Dict.update ((providerConfigFor name).getD []) e2.config := by
  simp only [TranslationEngine.switch_provider] at h
  rcases hname with rfl | rfl | rfl
  · rw [create_provider_apertium] at h
    split at h
    · rename_i p heq
      simp only [Prod.mk.injEq] at h
      obtain ⟨-, h2x⟩ := h
      subst h2x
      rw [except_bind_const_ok _ _ p heq]
      rfl
    · simp at h
  · rw [create_provider_google] at h
    split at h
    · rename_i p heq
      simp only [Prod.mk.injEq] at h
      obtain ⟨-, h2x⟩ := h
      subst h2x
      rw [except_bind_const_ok _ _ p heq]
      rfl
    · simp at h
  · rw [create_provider_libretranslate] at h
    split at h
    · rename_i p heq
      simp only [Prod.mk.injEq] at h
      obtain ⟨-, h2x⟩ := h
      subst h2x
      rw [except_bind_const_ok _ _ p heq]
      rfl
    · simp at h

/-- C10: config overrides accumulate in the engine for the life of the
instance.  After `switch_provider(p1, c1)` followed by
`switch_provider(p2, c2)` (both succeeding, `p2` a configured name), the
engine's stored config is the original config updated with `c1` and then
`c2`, and the backend constructed for `p2` received `p2`'s table defaults
overridden by that accumulated config — so `c1`, intended for `p1`, leaks
into `p2`'s construction. -/
theorem switch_provider_config_accumulates (w : World) (e e1 e2 : TranslationEngine)
    (p1 p2 : String) (c1 c2 : Dict)
    (hp2 : p2 = "apertium" ∨ p2 = "google" ∨ p2 = "libretranslate")
    (h1 : TranslationEngine.switch_provider w e p1 (some c1) = (true, e1))
    (h2 : TranslationEngine.switch_provider w e1 p2 (some c2) = (true, e2)) :
    e2.config = Dict.update (Dict.update e.config c1) c2 ∧
    e2.provider.config = Dict.update ((providerConfigFor p2).getD []) e2.config := by
  have he1 : e1.config = Dict.update e.config c1 := by
    rw [← switch_provider_result_config w e p1 c1, h1]
  have he2 : e2.config = Dict.update e1.config c2 := by
    rw [← switch_provider_result_config w e1 p2 c2, h2]
  exact ⟨by rw [he2, he1], switch_provider_ok_provider_config w e1 p2 c2 e2 hp2 h2⟩

/-- The engine after `switch_provider("google", {api_key: "SECRET"})` on a
fresh engine. -/
def firstSwitchedState : TranslationEngine :=
  (TranslationEngine.switch_provider benignWorld initialEngine "google"
    (some [("api_key", Value.str "SECRET")])).2

/-- The engine after a further `switch_provider("libretranslate",
{timeout: 5})`. -/
def secondSwitchedState : TranslationEngine :=
  (TranslationEngine.switch_provider benignWorld firstSwitchedState "libretranslate"
    (some [("timeout", Value.int 5)])).2

/-- C10 witness: the accumulation theorem applied to the concrete switch
chain google-then-libretranslate; the api_key override intended for
google is part of the config from which the libretranslate backend is
built. -/
theorem switch_provider_config_accumulates_witness :
    secondSwitchedState.config =
      Dict.update (Dict.update initialEngine.config [("api_key", Value.str "SECRET")])
        [("timeout", Value.int 5)] ∧
    secondSwitchedState.provider.config =
      Dict.update ((providerConfigFor "libretranslate").getD []) secondSwitchedState.config :=
  switch_provider_config_accumulates benignWorld initialEngine firstSwitchedState
    secondSwitchedState "google" "libretranslate" [("api_key", Value.str "SECRET")]
    [("timeout", Value.int 5)] (Or.inr (Or.inr rfl)) rfl rfl
